import Mathlib

/-!
Shallow embedding of the microserv e-commerce backend (order, payment and
notification services) and verification of its specification claims.

Modelling conventions:
* Python dicts keyed by strings become association lists kept in insertion
  order; assignment overwrites in place or appends a fresh key at the end,
  exactly as CPython dicts behave.
* Monetary floats are modelled exactly over `ℚ`; the numeric literals are the
  ones appearing in the source.
* Wall-clock reads (`datetime.datetime.now()`) and generated UUIDs are passed
  in as explicit parameters, since they are external inputs to the logic.
* Publishing to RabbitMQ is modelled as appending to an event log inside each
  service state.
* gRPC error codes set on the context are modelled with `GrpcError`; an RPC
  that sets an error code and returns an empty response is modelled as
  returning the unchanged state together with `Except.error`.
-/

namespace Microserv

/-- gRPC status codes the services set via `context.set_code`. -/
inductive GrpcError
  | NotFound
  | InvalidArgument
  | FailedPrecondition
  | Unavailable
  | Internal
deriving DecidableEq

/-- Association-list lookup, modelling Python `dict.get` / `in`. -/
def lookup {α : Type} (m : List (String × α)) (k : String) : Option α :=
  match m with
  | [] => none
  | (k', v) :: rest => if k' = k then some v else lookup rest k

/-- Association-list assignment, modelling Python `dict[k] = v`: an existing
key is overwritten in place, a fresh key is appended at the end. -/
def setKey {α : Type} (m : List (String × α)) (k : String) (v : α) : List (String × α) :=
  match m with
  | [] => [(k, v)]
  | (k', v') :: rest => if k' = k then (k, v) :: rest else (k', v') :: setKey rest k v

theorem lookup_setKey_self {α : Type} (m : List (String × α)) (k : String) (v : α) :
    lookup (setKey m k v) k = some v := by
  induction m with
  | nil => simp [setKey, lookup]
  | cons p rest ih =>
    by_cases h : p.1 = k
    · simp [setKey, lookup, h]
    · simp [setKey, lookup, h, ih]

/-- A JSON value as carried in the RabbitMQ message bodies (only the shapes
the services actually put there: strings, numbers, null). -/
inductive JVal
  | s (v : String)
  | n (v : ℚ)
  | null
deriving DecidableEq

/-- Python `event_data[k]` / `event_data.get(k)` on a JSON object. -/
def jlookup (j : List (String × JVal)) (k : String) : Option JVal :=
  match j with
  | [] => none
  | (k', v) :: rest => if k' = k then some v else jlookup rest k

/-! ## Order service (src/services/order_service.py) -/

/-- An order line item, as stored in `order['items']`.  The `total` field is
copied verbatim from the request; the service never recomputes it. -/
structure OrderItem where
  product_id : String
  product_name : String
  price : ℚ
  quantity : Int
  total : ℚ
deriving DecidableEq

/-- An order record, as held in `OrderService.orders`.  Statuses are the raw
strings the code stores. -/
structure Order where
  order_id : String
  user_id : String
  cart_id : String
  items : List OrderItem
  subtotal : ℚ
  tax : ℚ
  shipping_cost : ℚ
  total_amount : ℚ
  status : String
  shipping_address : String
  payment_method : String
  created_at : Nat
  updated_at : Nat
deriving DecidableEq

/-- The event record built by `send_order_event` (minus the generated
`event_id` and `timestamp`, which are external inputs serialized separately
by `orderEventJson`). -/
structure OrderEvent where
  event_type : String
  order_id : String
  user_id : String
  status : String
  reason : Option String
deriving DecidableEq

/-- Order service state: the `orders` dict, the `order_counter`, and the log
of events published on the `order_events` exchange. -/
structure OrderState where
  orders : List (String × Order)
  order_counter : Nat
  events : List OrderEvent
deriving DecidableEq

/-- The JSON object `send_order_event` publishes (source lines 204-212):
keys `event_id`, `event_type`, `timestamp`, `order_id`, `user_id`, `status`,
`reason` — and nothing else. -/
def orderEventJson (eid ts : String) (e : OrderEvent) : List (String × JVal) :=
  [("event_id", .s eid),
   ("event_type", .s e.event_type),
   ("timestamp", .s ts),
   ("order_id", .s e.order_id),
   ("user_id", .s e.user_id),
   ("status", .s e.status),
   ("reason", match e.reason with | some r => .s r | none => .null)]

/-- First sample order created by `_initialize_sample_data`. -/
def sampleOrder1 (t0 t1 : Nat) : Order :=
  { order_id := "ORD1000", user_id := "sample_user_1", cart_id := "CART_sample_user_1",
    items := [⟨"prod_001", "iPhone 13", 999.99, 1, 999.99⟩],
    subtotal := 1099.99 * 0.9, tax := 1099.99 * 0.1, shipping_cost := 0,
    total_amount := 1099.99, status := "DELIVERED",
    shipping_address := "123 Main St, New York, NY", payment_method := "CREDIT_CARD",
    created_at := t0, updated_at := t1 }

/-- Second sample order created by `_initialize_sample_data`. -/
def sampleOrder2 (t0 t1 : Nat) : Order :=
  { order_id := "ORD1001", user_id := "sample_user_2", cart_id := "CART_sample_user_2",
    items := [⟨"prod_002", "MacBook Pro", 1999.99, 1, 1999.99⟩],
    subtotal := 2199.99 * 0.9, tax := 2199.99 * 0.1, shipping_cost := 0,
    total_amount := 2199.99, status := "PROCESSING",
    shipping_address := "456 Oak Ave, Los Angeles, CA", payment_method := "CREDIT_CARD",
    created_at := t0, updated_at := t1 }

/-- The order service state right after `__init__` ran
`_initialize_sample_data`: two sample orders, counter advanced to 1002, no
events published yet.  `t0`/`t1` are the creation/update wall-clock reads. -/
def initialState (t0 t1 : Nat) : OrderState :=
  { orders := [("ORD1000", sampleOrder1 t0 t1), ("ORD1001", sampleOrder2 t0 t1)],
    order_counter := 1002, events := [] }

/-- `OrderService.handle_payment_success` (source lines 154-175): if the
order exists, unconditionally set its status to PROCESSING, refresh
`updated_at`, and publish one `order.processing` event.  There is no check of
the current status. -/
def handle_payment_success (st : OrderState) (order_id : String) (now : Nat) : OrderState :=
  match lookup st.orders order_id with
  | none => st
  | some o =>
    { st with
      orders := setKey st.orders order_id { o with status := "PROCESSING", updated_at := now },
      events := st.events ++ [⟨"order.processing", order_id, o.user_id, "PROCESSING", none⟩] }

/-- `OrderService.handle_payment_failure` (source lines 177-199): if the
order exists, unconditionally set its status to CANCELLED, refresh
`updated_at`, and publish one `order.cancelled` event with reason
"Payment failed".  There is no terminal-state check. -/
def handle_payment_failure (st : OrderState) (order_id : String) (now : Nat) : OrderState :=
  match lookup st.orders order_id with
  | none => st
  | some o =>
    { st with
      orders := setKey st.orders order_id { o with status := "CANCELLED", updated_at := now },
      events := st.events ++ [⟨"order.cancelled", order_id, o.user_id, "CANCELLED", some "Payment failed"⟩] }

/-- Request message for `CreateOrder`. -/
structure CreateOrderRequest where
  user_id : String
  cart_id : String
  shipping_address : String
  payment_method : String
  items : List OrderItem
deriving DecidableEq

/-- `OrderService.CreateOrder` (source lines 229-285): no validation of the
item list; subtotal is the sum of the request items' `total` fields; tax is
10% of subtotal; shipping is 9.99 under 100 else 0; the order is stored with
status PENDING and one `order.created` event is published. -/
def CreateOrder (st : OrderState) (req : CreateOrderRequest) (now : Nat) :
    OrderState × Order :=
  let order_id := "ORD" ++ toString st.order_counter
  let subtotal : ℚ := (req.items.map (fun it => it.total)).sum
  let tax : ℚ := subtotal * 0.1
  let shipping_cost : ℚ := if subtotal < 100 then 9.99 else 0
  let total_amount : ℚ := subtotal + tax + shipping_cost
  let order : Order :=
    { order_id := order_id, user_id := req.user_id, cart_id := req.cart_id,
      items := req.items, subtotal := subtotal, tax := tax,
      shipping_cost := shipping_cost, total_amount := total_amount,
      status := "PENDING", shipping_address := req.shipping_address,
      payment_method := req.payment_method, created_at := now, updated_at := now }
  ({ orders := setKey st.orders order_id order,
     order_counter := st.order_counter + 1,
     events := st.events ++ [⟨"order.created", order_id, req.user_id, "PENDING", none⟩] },
   order)

/-- The status whitelist in `UpdateOrderStatus` (source line 349). -/
def valid_statuses : List String :=
  ["PENDING", "PROCESSING", "SHIPPED", "DELIVERED", "CANCELLED"]

/-- `OrderService.UpdateOrderStatus` (source lines 338-375): the only check
on the requested status is membership in `valid_statuses`; there is no
transition-graph check against the current status.  On success the status is
overwritten and one `order.<new status lowercased>` event is published. -/
def UpdateOrderStatus (st : OrderState) (order_id status : String) (now : Nat) :
    OrderState × Except GrpcError Order :=
  match lookup st.orders order_id with
  | none => (st, .error .NotFound)
  | some o =>
    if status ∈ valid_statuses then
      let o2 := { o with status := status, updated_at := now }
      ({ st with
         orders := setKey st.orders order_id o2,
         events := st.events ++ [⟨"order." ++ status.toLower, order_id, o.user_id, status, none⟩] },
       .ok o2)
    else
      (st, .error .InvalidArgument)

/-! ## Payment service (src/services/payment_service.py) -/

/-- Request message for `ProcessPayment`. -/
structure PaymentRequest where
  order_id : String
  user_id : String
  amount : ℚ
  payment_method : String
  card_number : String
deriving DecidableEq

/-- A payment record, as held in `PaymentService.payments`. -/
structure Payment where
  payment_id : String
  order_id : String
  user_id : String
  amount : ℚ
  status : String
  transaction_id : String
  payment_method : String
  created_at : Nat
  updated_at : Nat
deriving DecidableEq

/-- The event record built by `send_payment_event` (minus the generated
`event_id` and `timestamp`). -/
structure PaymentEvent where
  event_type : String
  payment_id : String
  order_id : String
  amount : ℚ
  success : Bool
deriving DecidableEq

/-- Payment service state: the `payments` dict and the log of events
published on the `payment_events` exchange. -/
structure PaymentState where
  payments : List (String × Payment)
  events : List PaymentEvent
deriving DecidableEq

/-- The payment service state right after `__init__` ran
`_initialize_sample_data`: two sample SUCCESS payments (their generated UUIDs
and transaction ids are the parameters), no events published yet. -/
def paymentInitialState (p1 p2 t1 t2 : String) (now : Nat) : PaymentState :=
  { payments :=
      [(p1, ⟨p1, "ORD1000", "sample_user_1", 1099.99, "SUCCESS", t1, "CREDIT_CARD", now, now⟩),
       (p2, ⟨p2, "ORD1001", "sample_user_2", 2199.99, "SUCCESS", t2, "PAYPAL", now, now⟩)],
    events := [] }

/-- `PaymentService.send_payment_event` (source lines 192-220): publish
`payment.success` or `payment.failed` on the `payment_events` exchange. -/
def send_payment_event (st : PaymentState) (payment_id order_id : String)
    (success : Bool) (amount : ℚ) : PaymentState :=
  { st with
    events := st.events ++
      [⟨if success then "payment.success" else "payment.failed",
        payment_id, order_id, amount, success⟩] }

/-- `card_number.replace(" ", "")` from the source, as a character filter
removing the spaces. -/
def stripSpaces (s : String) : List Char :=
  s.data.filter (fun c => c != ' ')

/-- `PaymentService.ProcessPayment` (source lines 222-268): rejects an empty
card number or one shorter than 16 characters after removing spaces with
INVALID_ARGUMENT, touching neither the store nor the event log; otherwise the
simulated outcome is the literal `payment_success = True`, a record is stored
and a result event published.  No circuit breaker is consulted anywhere. -/
def ProcessPayment (st : PaymentState) (req : PaymentRequest)
    (payment_id txn : String) (now : Nat) :
    PaymentState × Except GrpcError Payment :=
  if req.card_number = "" ∨ (stripSpaces req.card_number).length < 16 then
    (st, .error .InvalidArgument)
  else
    let payment_success := true
    let payment : Payment :=
      { payment_id := payment_id, order_id := req.order_id, user_id := req.user_id,
        amount := req.amount,
        status := if payment_success then "SUCCESS" else "FAILED",
        transaction_id := txn, payment_method := req.payment_method,
        created_at := now, updated_at := now }
    let st1 := { st with payments := setKey st.payments payment_id payment }
    (send_payment_event st1 payment_id req.order_id payment_success req.amount,
     .ok payment)

/-- `PaymentService.process_payment_from_event` (source lines 155-190): the
simulated gateway draw `random.random() > 0.1` is the `draw` parameter.  The
handler reads `event_data['order_id']`, `event_data['user_id']` and
`event_data['total_amount']`; a missing key raises KeyError before any
mutation, which the surrounding `except` swallows, leaving the state
unchanged (the fall-through branch). -/
def process_payment_from_event (st : PaymentState) (event_data : List (String × JVal))
    (payment_id txn : String) (draw : Bool) (now : Nat) : PaymentState :=
  match jlookup event_data "order_id", jlookup event_data "user_id",
        jlookup event_data "total_amount" with
  | some (.s oid), some (.s uid), some (.n amt) =>
    let payment_success := draw
    let pm := match jlookup event_data "payment_method" with
      | some (.s m) => m
      | _ => "CREDIT_CARD"
    let payment : Payment :=
      { payment_id := payment_id, order_id := oid, user_id := uid, amount := amt,
        status := if payment_success then "SUCCESS" else "FAILED",
        transaction_id := txn, payment_method := pm,
        created_at := now, updated_at := now }
    let st1 := { st with payments := setKey st.payments payment_id payment }
    send_payment_event st1 payment_id oid payment_success amt
  | _, _, _ => st

/-! ## Notification service (src/services/notification_service.py) -/

/-- A stored notification, field-for-field the dict the service builds. -/
structure Notification where
  notification_id : String
  user_id : String
  type : String
  title : String
  message : String
  metadata : List (String × JVal)
  sent : Bool
  created_at : Nat
deriving DecidableEq

/-- Notification service state: the per-user `notifications` dict. -/
structure NotifState where
  notifications : List (String × List Notification)
deriving DecidableEq

/-- Request message for `SendNotification` (its `metadata` is a
string-to-string proto map). -/
structure NotifRequest where
  user_id : String
  type : String
  title : String
  message : String
  metadata : List (String × String)
deriving DecidableEq

/-- `NotificationService._store_notification` (source lines 180-200), the
event-driven storage path: append, then keep only the last 100 entries. -/
def store_notification (st : NotifState) (user_id ntype title message : String)
    (metadata : List (String × JVal)) (nid : String) (now : Nat) : NotifState :=
  let old := (lookup st.notifications user_id).getD []
  let appended := old ++ [⟨nid, user_id, ntype, title, message, metadata, true, now⟩]
  let kept := if appended.length > 100 then appended.drop (appended.length - 100) else appended
  ⟨setKey st.notifications user_id kept⟩

/-- `NotificationService.SendNotification` (source lines 212-250), the direct
RPC path: append only — this path has no 100-entry trim. -/
def SendNotification (st : NotifState) (req : NotifRequest) (nid : String) (now : Nat) :
    NotifState × Notification :=
  let old := (lookup st.notifications req.user_id).getD []
  let n : Notification :=
    ⟨nid, req.user_id, req.type, req.title, req.message,
     req.metadata.map (fun kv => (kv.1, JVal.s kv.2)), true, now⟩
  (⟨setKey st.notifications req.user_id (old ++ [n])⟩, n)

/-! ## Single-step lemmas about the payment-result handlers -/

theorem hps_lookup (st : OrderState) (oid : String) (now : Nat) (o : Order)
    (h : lookup st.orders oid = some o) :
    lookup (handle_payment_success st oid now).orders oid =
      some { o with status := "PROCESSING", updated_at := now } := by
  simp [handle_payment_success, h, lookup_setKey_self]

theorem hps_events (st : OrderState) (oid : String) (now : Nat) (o : Order)
    (h : lookup st.orders oid = some o) :
    (handle_payment_success st oid now).events =
      st.events ++ [⟨"order.processing", oid, o.user_id, "PROCESSING", none⟩] := by
  simp [handle_payment_success, h]

/-! ## Claims about the order service -/

/-- Claim C1 (amended): handling a `payment.failed` event for an order present
in the ledger sets its status to CANCELLED with reason "Payment failed" and
publishes exactly one `order.cancelled` event, regardless of the order's
current status — the code performs no terminal-state check, so DELIVERED and
CANCELLED orders are treated the same way as PENDING ones, and every
redelivery publishes a further `order.cancelled` event. -/
theorem C1_payment_failed_cancels (st : OrderState) (oid : String) (now : Nat)
    (o : Order) (h : lookup st.orders oid = some o) :
    lookup (handle_payment_failure st oid now).orders oid =
      some { o with status := "CANCELLED", updated_at := now } ∧
    (handle_payment_failure st oid now).events =
      st.events ++ [⟨"order.cancelled", oid, o.user_id, "CANCELLED", some "Payment failed"⟩] := by
  constructor
  · simp [handle_payment_failure, h, lookup_setKey_self]
  · simp [handle_payment_failure, h]

/-- Witness for C1 at the service's own initial state: sample order ORD1000. -/
theorem C1_payment_failed_cancels_witness :
    lookup (handle_payment_failure (initialState 0 7) "ORD1000" 9).orders "ORD1000" =
      some { sampleOrder1 0 7 with status := "CANCELLED", updated_at := 9 } ∧
    (handle_payment_failure (initialState 0 7) "ORD1000" 9).events =
      (initialState 0 7).events ++
        [⟨"order.cancelled", "ORD1000", (sampleOrder1 0 7).user_id, "CANCELLED",
          some "Payment failed"⟩] :=
  C1_payment_failed_cancels (initialState 0 7) "ORD1000" 9 (sampleOrder1 0 7) rfl

/-- Counterexample to C1 as stated: sample order ORD1000 is in the terminal
status DELIVERED, yet handling a `payment.failed` event referencing it
changes its status to CANCELLED instead of leaving it unchanged. -/
theorem C1_counterexample :
    (lookup (initialState 0 7).orders "ORD1000").map (fun o => o.status) = some "DELIVERED" ∧
    (lookup (handle_payment_failure (initialState 0 7) "ORD1000" 9).orders "ORD1000").map
      (fun o => o.status) = some "CANCELLED" :=
  ⟨rfl, rfl⟩

/-- Claim C2 (amended): handling `payment.success` transitions any existing
order to PROCESSING — with no check that it is PENDING — and publishes one
`order.processing` event on every delivery.  A second delivery leaves the
status at PROCESSING (so the stored status is the same as after one
delivery), but it refreshes `updated_at` and publishes a second
`order.processing` event rather than being a no-op. -/
theorem C2_payment_success_behavior (st : OrderState) (oid : String) (n1 n2 : Nat)
    (o : Order) (h : lookup st.orders oid = some o) :
    lookup (handle_payment_success st oid n1).orders oid =
      some { o with status := "PROCESSING", updated_at := n1 } ∧
    (handle_payment_success st oid n1).events =
      st.events ++ [⟨"order.processing", oid, o.user_id, "PROCESSING", none⟩] ∧
    lookup (handle_payment_success (handle_payment_success st oid n1) oid n2).orders oid =
      some { o with status := "PROCESSING", updated_at := n2 } ∧
    (handle_payment_success (handle_payment_success st oid n1) oid n2).events =
      st.events ++ [⟨"order.processing", oid, o.user_id, "PROCESSING", none⟩,
                    ⟨"order.processing", oid, o.user_id, "PROCESSING", none⟩] := by
  have h1 := hps_lookup st oid n1 o h
  refine ⟨h1, hps_events st oid n1 o h, ?_, ?_⟩
  · exact hps_lookup _ oid n2 { o with status := "PROCESSING", updated_at := n1 } h1
  · rw [hps_events _ oid n2 { o with status := "PROCESSING", updated_at := n1 } h1,
        hps_events st oid n1 o h]
    simp

/-- Witness for C2 at the service's own initial state: sample order ORD1001. -/
theorem C2_payment_success_behavior_witness :
    lookup (handle_payment_success (initialState 0 7) "ORD1001" 9).orders "ORD1001" =
      some { sampleOrder2 0 7 with status := "PROCESSING", updated_at := 9 } ∧
    (handle_payment_success (initialState 0 7) "ORD1001" 9).events =
      (initialState 0 7).events ++
        [⟨"order.processing", "ORD1001", (sampleOrder2 0 7).user_id, "PROCESSING", none⟩] ∧
    lookup (handle_payment_success (handle_payment_success (initialState 0 7) "ORD1001" 9)
        "ORD1001" 10).orders "ORD1001" =
      some { sampleOrder2 0 7 with status := "PROCESSING", updated_at := 10 } ∧
    (handle_payment_success (handle_payment_success (initialState 0 7) "ORD1001" 9)
        "ORD1001" 10).events =
      (initialState 0 7).events ++
        [⟨"order.processing", "ORD1001", (sampleOrder2 0 7).user_id, "PROCESSING", none⟩,
         ⟨"order.processing", "ORD1001", (sampleOrder2 0 7).user_id, "PROCESSING", none⟩] :=
  C2_payment_success_behavior (initialState 0 7) "ORD1001" 9 10 (sampleOrder2 0 7) rfl

/-- Counterexample to C2 as stated: sample order ORD1001 is already
PROCESSING, yet a delivery of `payment.success` publishes an
`order.processing` event, and a second delivery publishes another one instead
of being a no-op; moreover sample order ORD1000 is DELIVERED (not PENDING),
yet the handler still moves it to PROCESSING. -/
theorem C2_counterexample :
    (lookup (initialState 0 7).orders "ORD1001").map (fun o => o.status) = some "PROCESSING" ∧
    (handle_payment_success (initialState 0 7) "ORD1001" 9).events.map (fun e => e.event_type) =
      ["order.processing"] ∧
    (handle_payment_success (handle_payment_success (initialState 0 7) "ORD1001" 9)
        "ORD1001" 10).events.map (fun e => e.event_type) =
      ["order.processing", "order.processing"] ∧
    (lookup (initialState 0 7).orders "ORD1000").map (fun o => o.status) = some "DELIVERED" ∧
    (lookup (handle_payment_success (initialState 0 7) "ORD1000" 9).orders "ORD1000").map
      (fun o => o.status) = some "PROCESSING" :=
  ⟨rfl, rfl, rfl, rfl, rfl⟩

/-- Claim C3 (amended): `UpdateOrderStatus` checks only that the requested
status is one of the five literal status strings; it enforces no transition
graph against the current status.  Any of the five statuses is accepted from
any current status, overwriting the status, refreshing `updated_at` and
publishing one `order.<new status lowercased>` event; a string outside the
five fails with INVALID_ARGUMENT and leaves the state unchanged. -/
theorem C3_update_status_no_graph (st : OrderState) (oid s : String) (now : Nat)
    (o : Order) (h : lookup st.orders oid = some o) :
    (s ∈ valid_statuses →
      UpdateOrderStatus st oid s now =
        ({ st with
           orders := setKey st.orders oid { o with status := s, updated_at := now },
           events := st.events ++ [⟨"order." ++ s.toLower, oid, o.user_id, s, none⟩] },
         .ok { o with status := s, updated_at := now })) ∧
    (s ∉ valid_statuses →
      UpdateOrderStatus st oid s now = (st, .error .InvalidArgument)) := by
  constructor
  · intro hm; simp [UpdateOrderStatus, h, hm]
  · intro hm; simp [UpdateOrderStatus, h, hm]

/-- Witness for C3: a legal-looking move (PROCESSING to SHIPPED) and an
unknown status string, both at the service's own initial state. -/
theorem C3_update_status_no_graph_witness :
    (UpdateOrderStatus (initialState 0 7) "ORD1001" "SHIPPED" 9 =
      ({ initialState 0 7 with
         orders := setKey (initialState 0 7).orders "ORD1001"
           { sampleOrder2 0 7 with status := "SHIPPED", updated_at := 9 },
         events := (initialState 0 7).events ++
           [⟨"order." ++ "SHIPPED".toLower, "ORD1001", (sampleOrder2 0 7).user_id,
             "SHIPPED", none⟩] },
       .ok { sampleOrder2 0 7 with status := "SHIPPED", updated_at := 9 })) ∧
    (UpdateOrderStatus (initialState 0 7) "ORD1001" "FOO" 9 =
      (initialState 0 7, .error .InvalidArgument)) :=
  ⟨(C3_update_status_no_graph (initialState 0 7) "ORD1001" "SHIPPED" 9
      (sampleOrder2 0 7) rfl).1 (by decide),
   (C3_update_status_no_graph (initialState 0 7) "ORD1001" "FOO" 9
      (sampleOrder2 0 7) rfl).2 (by decide)⟩

/-- Counterexample to C3 as stated: DELIVERED to PENDING is not an edge of
the spec's transition graph, yet `UpdateOrderStatus` accepts it and rewrites
the stored status. -/
theorem C3_counterexample :
    (lookup (initialState 0 7).orders "ORD1000").map (fun o => o.status) = some "DELIVERED" ∧
    (UpdateOrderStatus (initialState 0 7) "ORD1000" "PENDING" 9).2 =
      .ok { sampleOrder1 0 7 with status := "PENDING", updated_at := 9 } ∧
    (lookup (UpdateOrderStatus (initialState 0 7) "ORD1000" "PENDING" 9).1.orders "ORD1000").map
      (fun o => o.status) = some "PENDING" :=
  ⟨rfl, rfl, rfl⟩

/-- A `CreateOrder` request whose single item's `total` field (5) disagrees
with `price × quantity` (10 × 2 = 20); the service stores it verbatim. -/
def reqBad : CreateOrderRequest := ⟨"u4", "c4", "a4", "CARD", [⟨"p", "n", 10, 2, 5⟩]⟩

/-- A `CreateOrder` request with an empty item list. -/
def reqEmpty : CreateOrderRequest := ⟨"u2", "c2", "a2", "CARD", []⟩

/-- A `CreateOrder` request with a non-positive quantity. -/
def reqNeg : CreateOrderRequest := ⟨"u3", "c3", "a3", "CARD", [⟨"p", "n", 10, -1, -10⟩]⟩

/-- A well-formed `CreateOrder` request used for concrete runs. -/
def reqC5 : CreateOrderRequest := ⟨"u1", "c1", "addr", "CREDIT_CARD", [⟨"p1", "n1", 10, 2, 20⟩]⟩

/-- Claim C5 (code bug): every event published through `send_order_event` —
in particular the `order.created` event emitted by `CreateOrder` — carries
only the keys `event_id`, `event_type`, `timestamp`, `order_id`, `user_id`,
`status` and `reason`.  It has no `total_amount` and no `payment_method`
field, so the Payment Processor's `order.created` consumer, which reads
`event_data['total_amount']`, hits a KeyError and processes no payment: the
payment state is left unchanged. -/
theorem C5_order_event_missing_fields (eid ts : String) (e : OrderEvent)
    (pst : PaymentState) (pid txn : String) (draw : Bool) (now : Nat) :
    jlookup (orderEventJson eid ts e) "total_amount" = none ∧
    jlookup (orderEventJson eid ts e) "payment_method" = none ∧
    process_payment_from_event pst (orderEventJson eid ts e) pid txn draw now = pst :=
  ⟨rfl, rfl, rfl⟩

/-- Concrete run of the C5 failure: the `order.created` event published by
`CreateOrder` at the initial state, fed to the payment consumer, is dropped
and the payment store stays exactly the sample data. -/
theorem order_created_event_dropped_by_consumer :
    (CreateOrder (initialState 0 7) reqC5 9).1.events =
      [⟨"order.created", "ORD1002", "u1", "PENDING", none⟩] ∧
    process_payment_from_event (paymentInitialState "p1" "p2" "t1" "t2" 0)
      (orderEventJson "eid" "ts" ⟨"order.created", "ORD1002", "u1", "PENDING", none⟩)
      "pid" "txn" true 5 =
      paymentInitialState "p1" "p2" "t1" "t2" 0 :=
  ⟨rfl, rfl⟩

/-- Claim C6 (amended): for every `CreateOrder` call (the service validates
nothing), the stored order's `subtotal` is the sum of the request items'
`total` fields taken verbatim — not recomputed as `price × quantity` —
`tax` is `subtotal × 0.1`, `shipping_cost` is 9.99 below a subtotal of 100
and 0 otherwise (so it is 0 iff the subtotal is at least 100), and
`total_amount = subtotal + tax + shipping_cost`. -/
theorem C6_order_totals (st : OrderState) (req : CreateOrderRequest) (now : Nat) :
    (CreateOrder st req now).2.items = req.items ∧
    (CreateOrder st req now).2.subtotal = (req.items.map (fun it => it.total)).sum ∧
    (CreateOrder st req now).2.tax = (CreateOrder st req now).2.subtotal * 0.1 ∧
    (CreateOrder st req now).2.shipping_cost =
      (if (CreateOrder st req now).2.subtotal < 100 then (9.99 : ℚ) else 0) ∧
    (CreateOrder st req now).2.total_amount =
      (CreateOrder st req now).2.subtotal + (CreateOrder st req now).2.tax +
        (CreateOrder st req now).2.shipping_cost ∧
    ((CreateOrder st req now).2.shipping_cost = 0 ↔
      100 ≤ (CreateOrder st req now).2.subtotal) := by
  refine ⟨rfl, rfl, rfl, rfl, rfl, ?_⟩
  show (if ((req.items.map (fun it => it.total)).sum : ℚ) < 100 then (9.99 : ℚ) else 0) = 0 ↔
    100 ≤ ((req.items.map (fun it => it.total)).sum : ℚ)
  split_ifs with hlt
  · constructor
    · intro h99; norm_num at h99
    · intro hge; exact absurd hge (not_le.mpr hlt)
  · exact iff_of_true rfl (le_of_not_lt hlt)

/-- Counterexample to C6 as stated: `CreateOrder` accepts an item whose
`total` field is 5 although `price × quantity` is 20, and stores both the
line total and the subtotal as 5. -/
theorem C6_counterexample :
    (CreateOrder (initialState 0 7) reqBad 9).2.items.map (fun it => it.total) = [5] ∧
    (CreateOrder (initialState 0 7) reqBad 9).2.items.map
      (fun it => it.price * (it.quantity : ℚ)) = [20] ∧
    (CreateOrder (initialState 0 7) reqBad 9).2.subtotal = 5 ∧
    (5 : ℚ) ≠ 20 := by
  refine ⟨rfl, ?_, ?_, by norm_num⟩
  · show [((10 : ℚ) * ((2 : Int) : ℚ))] = [(20 : ℚ)]
    norm_num
  · show ([(5 : ℚ)]).sum = 5
    norm_num

/-- Claim C7 (amended): `CreateOrder` performs no validation of the item
list: every request — including an empty list or a non-positive quantity —
results in an order stored under the fresh id with status PENDING and
exactly one published `order.created` event. -/
theorem C7_no_item_validation (st : OrderState) (req : CreateOrderRequest) (now : Nat) :
    lookup (CreateOrder st req now).1.orders ("ORD" ++ toString st.order_counter) =
      some (CreateOrder st req now).2 ∧
    (CreateOrder st req now).1.events =
      st.events ++ [⟨"order.created", "ORD" ++ toString st.order_counter, req.user_id,
                     "PENDING", none⟩] ∧
    (CreateOrder st req now).2.status = "PENDING" := by
  refine ⟨?_, rfl, rfl⟩
  exact lookup_setKey_self st.orders ("ORD" ++ toString st.order_counter)
    (CreateOrder st req now).2

/-- Counterexample to C7 as stated: an empty item list and a quantity of -1
are both accepted — an order is stored (for the empty list: subtotal 0,
total 9.99, status PENDING) and an `order.created` event is published,
instead of failing with ValidationError. -/
theorem C7_counterexample :
    (CreateOrder (initialState 0 7) reqEmpty 9).2.status = "PENDING" ∧
    (CreateOrder (initialState 0 7) reqEmpty 9).2.total_amount = 9.99 ∧
    (lookup (CreateOrder (initialState 0 7) reqEmpty 9).1.orders "ORD1002").map
      (fun o => o.order_id) = some "ORD1002" ∧
    (CreateOrder (initialState 0 7) reqEmpty 9).1.events.map (fun e => e.event_type) =
      ["order.created"] ∧
    (CreateOrder (initialState 0 7) reqNeg 9).2.status = "PENDING" ∧
    (CreateOrder (initialState 0 7) reqNeg 9).2.items.map (fun it => it.quantity) = [-1] := by
  refine ⟨rfl, ?_, rfl, rfl, rfl, rfl⟩
  show (0 : ℚ) + 0 * 0.1 + (if (0 : ℚ) < 100 then (9.99 : ℚ) else 0) = 9.99
  norm_num

/-! ## Claims about the payment service -/

/-- A `ProcessPayment` request with a valid 16-digit card. -/
def reqC4 : PaymentRequest := ⟨"ORD2000", "u9", 50, "CREDIT_CARD", "1234567890123456"⟩

/-- A well-formed `order.created` envelope (as the spec intends it, with
`total_amount` present) used to drive the event path. -/
def evC4 (i : Nat) : List (String × JVal) :=
  [("event_id", .s ("e" ++ toString i)), ("event_type", .s "order.created"),
   ("order_id", .s ("ORD" ++ toString i)), ("user_id", .s "u9"),
   ("total_amount", .n 50), ("payment_method", .s "CREDIT_CARD")]

/-- The payment state after ten consecutive simulated-gateway failures
(`random.random() > 0.1` drawn false ten times in a row) on the event path,
starting from the service's initial state. -/
def pstC4 : PaymentState :=
  (List.range 10).foldl
    (fun s i => process_payment_from_event s (evC4 i) ("P" ++ toString i)
      ("T" ++ toString i) false 0)
    (paymentInitialState "p1" "p2" "t1" "t2" 0)

/-- Claim C4 (amended): the payment service implements no circuit breaker.
`ProcessPayment` never fails with UNAVAILABLE, its result is independent of
the stored payment history (so no run of prior gateway failures can change
it), and with a valid card it always returns a SUCCESS payment —
`GetCircuitBreakerState` has no server-side implementation at all. -/
theorem C4_no_circuit_breaker (st st2 : PaymentState) (req : PaymentRequest)
    (pid txn : String) (now : Nat) :
    (ProcessPayment st req pid txn now).2 ≠ .error .Unavailable ∧
    (ProcessPayment st req pid txn now).2 = (ProcessPayment st2 req pid txn now).2 ∧
    (¬(req.card_number = "" ∨ (stripSpaces req.card_number).length < 16) →
      (ProcessPayment st req pid txn now).2 =
        .ok ⟨pid, req.order_id, req.user_id, req.amount, "SUCCESS", txn,
             req.payment_method, now, now⟩) := by
  by_cases h : req.card_number = "" ∨ (stripSpaces req.card_number).length < 16
  · exact ⟨by simp [ProcessPayment, h], by simp [ProcessPayment, h], fun hc => absurd h hc⟩
  · refine ⟨?_, ?_, fun _ => ?_⟩ <;> simp [ProcessPayment, send_payment_event, h]

/-- Witness for C4 at the state reached by ten consecutive failures. -/
theorem C4_no_circuit_breaker_witness :
    (ProcessPayment pstC4 reqC4 "PX" "TX" 1).2 =
      .ok ⟨"PX", reqC4.order_id, reqC4.user_id, reqC4.amount, "SUCCESS", "TX",
           reqC4.payment_method, 1, 1⟩ :=
  (C4_no_circuit_breaker pstC4 pstC4 reqC4 "PX" "TX" 1).2.2 (by decide)

/-- Counterexample to C4 as stated: after ten consecutive simulated-gateway
failures — far beyond any failure-rate threshold — the next `ProcessPayment`
call with a valid card does not fail fast with UNAVAILABLE; it invokes the
simulated charge, creates a SUCCESS payment record and publishes
`payment.success`. -/
theorem C4_counterexample :
    pstC4.events.map (fun e => e.event_type) = List.replicate 10 "payment.failed" ∧
    pstC4.events.map (fun e => e.success) = List.replicate 10 false ∧
    (ProcessPayment pstC4 reqC4 "PX" "TX" 1).2 =
      .ok ⟨"PX", "ORD2000", "u9", 50, "SUCCESS", "TX", "CREDIT_CARD", 1, 1⟩ ∧
    (ProcessPayment pstC4 reqC4 "PX" "TX" 1).2 ≠ .error .Unavailable ∧
    (ProcessPayment pstC4 reqC4 "PX" "TX" 1).1.events.map (fun e => e.event_type) =
      List.replicate 10 "payment.failed" ++ ["payment.success"] := by
  refine ⟨rfl, rfl, rfl, ?_, rfl⟩
  intro hEq
  have h1 : (ProcessPayment pstC4 reqC4 "PX" "TX" 1).2 =
      Except.ok (⟨"PX", "ORD2000", "u9", 50, "SUCCESS", "TX", "CREDIT_CARD", 1, 1⟩ : Payment) :=
    rfl
  rw [h1] at hEq
  exact Except.noConfusion hEq

/-- Characters of a card number: only digits and spaces. -/
theorem filter_nonspace_eq_digits (l : List Char)
    (h : ∀ c ∈ l, c.isDigit = true ∨ c = ' ') :
    l.filter (fun c => c != ' ') = l.filter (fun c => c.isDigit) := by
  induction l with
  | nil => rfl
  | cons c t ih =>
    have hc := h c (by simp)
    have iht := ih (fun x hx => h x (by simp [hx]))
    rcases hc with hd | hsp
    · have hne : (c != ' ') = true := by
        have : c ≠ ' ' := by
          intro hE; rw [hE] at hd; exact absurd hd (by decide)
        simpa [bne_iff_ne] using this
      simp [List.filter_cons, hd, hne, iht]
    · subst hsp
      simp [List.filter_cons, iht, (by decide : ((' ' : Char) != ' ') = false),
        (by decide : (' ' : Char).isDigit = false)]

/-- Claim C8: a `ProcessPayment` call whose card number consists of digits
and spaces but has fewer than 16 digits fails with INVALID_ARGUMENT
(ValidationError), stores no payment record and publishes no event — the
state is returned unchanged. -/
theorem C8_short_card_rejected (st : PaymentState) (req : PaymentRequest)
    (pid txn : String) (now : Nat)
    (hchars : ∀ c ∈ req.card_number.data, c.isDigit = true ∨ c = ' ')
    (hlen : (req.card_number.data.filter (fun c => c.isDigit)).length < 16) :
    ProcessPayment st req pid txn now = (st, .error .InvalidArgument) := by
  have hs : (stripSpaces req.card_number).length < 16 := by
    unfold stripSpaces
    rw [filter_nonspace_eq_digits _ hchars]
    exact hlen
  simp [ProcessPayment, hs]

/-- A `ProcessPayment` request with a 15-digit card number. -/
def req15 : PaymentRequest := ⟨"ORD3000", "u15", 25, "CREDIT_CARD", "123456789012345"⟩

/-- Witness for C8: the spec's own scenario, a 15-digit card number. -/
theorem C8_short_card_rejected_witness :
    ProcessPayment (paymentInitialState "p1" "p2" "t1" "t2" 0) req15 "p" "t" 1 =
      (paymentInitialState "p1" "p2" "t1" "t2" 0, .error .InvalidArgument) :=
  C8_short_card_rejected (paymentInitialState "p1" "p2" "t1" "t2" 0) req15 "p" "t" 1
    (by decide) (by decide)

/-- Claim C10: on the synchronous path the simulated charge outcome is the
literal `payment_success = True`, so every `ProcessPayment` call either
fails validation (leaving the state unchanged) or returns and stores a
SUCCESS payment and publishes `payment.success` — a FAILED record or a
`payment.failed` event is impossible on this path. -/
theorem C10_sync_path_always_success (st : PaymentState) (req : PaymentRequest)
    (pid txn : String) (now : Nat) :
    ProcessPayment st req pid txn now = (st, .error .InvalidArgument) ∨
    ProcessPayment st req pid txn now =
      ({ st with
         payments := setKey st.payments pid
           ⟨pid, req.order_id, req.user_id, req.amount, "SUCCESS", txn,
            req.payment_method, now, now⟩,
         events := st.events ++ [⟨"payment.success", pid, req.order_id, req.amount, true⟩] },
       .ok ⟨pid, req.order_id, req.user_id, req.amount, "SUCCESS", txn,
            req.payment_method, now, now⟩) := by
  by_cases h : req.card_number = "" ∨ (stripSpaces req.card_number).length < 16
  · left; simp [ProcessPayment, h]
  · right; simp [ProcessPayment, send_payment_event, h]

/-! ## Claims about the notification service -/

/-- Claim C9 (amended): only the event-driven storage path
(`_store_notification`) bounds a user's list — after it runs, the list is a
suffix of the appended list (insertion order preserved, oldest evicted
first) of length `min (previous + 1) 100`.  The direct `SendNotification`
RPC appends without any eviction, so it can grow a user's list beyond 100. -/
theorem C9_store_bounded_send_unbounded (st : NotifState)
    (uid ntype title msg : String) (md : List (String × JVal)) (nid : String) (now : Nat)
    (req : NotifRequest) (nid2 : String) (now2 : Nat) :
    List.IsSuffix
      ((lookup (store_notification st uid ntype title msg md nid now).notifications uid).getD [])
      (((lookup st.notifications uid).getD []) ++ [⟨nid, uid, ntype, title, msg, md, true, now⟩]) ∧
    ((lookup (store_notification st uid ntype title msg md nid now).notifications uid).getD
        []).length =
      min (((lookup st.notifications uid).getD []).length + 1) 100 ∧
    (lookup (SendNotification st req nid2 now2).1.notifications req.user_id).getD [] =
      ((lookup st.notifications req.user_id).getD []) ++
        [⟨nid2, req.user_id, req.type, req.title, req.message,
          req.metadata.map (fun kv => (kv.1, JVal.s kv.2)), true, now2⟩] := by
  refine ⟨?_, ?_, ?_⟩
  · show List.IsSuffix ((lookup (NotifState.mk _).notifications uid).getD []) _
    simp only [store_notification, lookup_setKey_self, Option.getD_some]
    split_ifs
    · exact List.drop_suffix _ _
    · exact List.suffix_refl _
  · simp only [store_notification, lookup_setKey_self, Option.getD_some]
    split_ifs with hgt
    · rw [List.length_drop]
      simp only [List.length_append, List.length_singleton] at hgt ⊢
      omega
    · simp only [List.length_append, List.length_singleton] at hgt ⊢
      omega
  · simp only [SendNotification, lookup_setKey_self, Option.getD_some]

/-- The request used to grow one user's list through the direct RPC. -/
def reqNotif : NotifRequest := ⟨"u9", "SYSTEM_NOTIFICATION", "t", "m", []⟩

/-- `n` successive `SendNotification` calls for the same user. -/
def iterSend : Nat → NotifState → NotifState
  | 0, st => st
  | Nat.succ k, st => iterSend k (SendNotification st reqNotif ("n" ++ toString k) 0).1

theorem iterSend_length (n : Nat) (st : NotifState) :
    ((lookup (iterSend n st).notifications "u9").getD []).length =
      ((lookup st.notifications "u9").getD []).length + n := by
  induction n generalizing st with
  | zero => simp [iterSend]
  | succ k ih =>
    show ((lookup (iterSend k (SendNotification st reqNotif ("n" ++ toString k) 0).1).notifications
        "u9").getD []).length = _
    rw [ih]
    simp only [SendNotification, reqNotif, lookup_setKey_self, Option.getD_some,
      List.length_append, List.length_singleton]
    omega

/-- Counterexample to C9 as stated: 101 direct `SendNotification` calls for
one user leave that user's list at length 101 — the direct path never
evicts, so the 100-notification bound fails. -/
theorem C9_counterexample :
    100 < ((lookup (iterSend 101 ⟨[]⟩).notifications "u9").getD []).length := by
  rw [iterSend_length 101 ⟨[]⟩]
  simp [lookup]

end Microserv
